import Mathlib

/-!
Shallow embedding of `src/player/player.rs` of the spot repository: the
`SpotifyPlayer` command actor, its session-establishment endpoint fallback,
player and mixer creation, the command run loop, and the player-event
bridge.  External collaborators (librespot's `Session::connect`,
`keymaster::get_token`, the system clock, and the gsettings reload source)
are modelled as an explicit environment `Env` of pure oracles; calls to the
delegate, task spawns, session shutdowns and playback-engine invocations
are recorded in an explicit effect trace.  Rust object identity (the mixer
boxed once, each `Player::new` allocation) is modelled by a ghost
allocation counter `fresh` stamped onto each created handle.
-/

deriving instance DecidableEq for Except

namespace Spot

/-- Error taxonomy `SpotifyError` of player.rs (LoginFailed, TokenFailed,
PlayerNotReady). -/
inductive SpotifyError where
  | LoginFailed
  | TokenFailed
  | PlayerNotReady
  deriving DecidableEq, Repr

/-- Bitrate variants of librespot `playback::config::Bitrate`. -/
inductive Bitrate where
  | Bitrate96
  | Bitrate160
  | Bitrate320
  deriving DecidableEq, Repr

/-- Audio backend selection (player.rs `AudioBackend`). -/
inductive AudioBackend where
  | PulseAudio
  | Alsa (device : String)
  deriving DecidableEq, Repr

/-- Playback settings (player.rs `SpotifyPlayerSettings`); ports are `u16`,
modelled as `Nat`. -/
structure SpotifyPlayerSettings where
  bitrate : Bitrate
  backend : AudioBackend
  ap_port : Option Nat
  deriving DecidableEq, Repr

/-- The `Default` impl for `SpotifyPlayerSettings` in player.rs. -/
def SpotifyPlayerSettings.default : SpotifyPlayerSettings :=
  { bitrate := .Bitrate160, backend := .PulseAudio, ap_port := none }

/-- Opaque live-session handle (librespot `Session`).  `id` models the
identity of the underlying connection; `username` and `country` are the
derived accessors the actor reads. -/
structure Session where
  id : Nat
  username : String
  country : String
  deriving DecidableEq, Repr

/-- The two classes of `SessionError` distinguished by `create_session`
(payloads of the Rust variants are only logged, so they are dropped). -/
inductive SessionError where
  | IoError
  | AuthenticationError
  deriving DecidableEq, Repr

/-- Authentication types used by the two login paths (librespot
`AuthenticationType`). -/
inductive AuthenticationType where
  | AUTHENTICATION_USER_PASS
  | AUTHENTICATION_SPOTIFY_TOKEN
  deriving DecidableEq, Repr

/-- librespot `Credentials`; `auth_data` is a byte payload in Rust, carried
here as the string it was built from. -/
structure Credentials where
  username : String
  auth_type : AuthenticationType
  auth_data : String
  deriving DecidableEq, Repr

/-- librespot `Credentials::with_password`. -/
def Credentials.with_password (username password : String) : Credentials :=
  { username := username, auth_type := .AUTHENTICATION_USER_PASS,
    auth_data := password }

/-- Token returned by `keymaster::get_token`: access token string and
lifetime in seconds. -/
structure TokenResponse where
  access_token : String
  expires_in : Nat
  deriving DecidableEq, Repr

/-- The `crate::app::credentials::Credentials` record handed to the
delegate on password login.  Expiry instants (`SystemTime`) are modelled as
`Nat` seconds. -/
structure AppCredentials where
  username : String
  password : String
  token : String
  token_expiry_time : Option Nat
  country : String
  deriving DecidableEq, Repr

/-- The soft mixer handle (`Box<dyn Mixer>`): `id` is its ghost identity,
`volume` the current integer volume. -/
structure Mixer where
  id : Nat
  volume : Nat
  deriving DecidableEq, Repr

/-- A live playback engine handle (librespot `Player`): ghost identity,
the configuration it was built with, the session it is bound to, and the
identity of the shared soft-volume mixer. -/
structure Player where
  id : Nat
  bitrate : Bitrate
  backend : AudioBackend
  session : Session
  mixer_id : Nat
  deriving DecidableEq, Repr

/-- The command vocabulary matched by `SpotifyPlayer::handle` (the
`Command` enum of `super`).  Volume fractions are `f64` in Rust; the exact
values relevant here (0.0, 1.0 and the constant 65535.0) are exactly
representable, so the field is carried as `ℚ`. -/
inductive Command where
  | PlayerSetVolume (volume : ℚ)
  | PlayerResume
  | PlayerPause
  | PlayerStop
  | PlayerSeek (position_ms : Nat)
  | PlayerLoad (track : String)
  | RefreshToken
  | Logout
  | PasswordLogin (username password : String)
  | TokenLogin (username token : String)
  | ReloadSettings
  deriving DecidableEq, Repr

/-- One call on the `SpotifyPlayerDelegate` trait. -/
inductive DelegateCall where
  | end_of_track_reached
  | password_login_successful (credentials : AppCredentials)
  | token_login_successful (username token : String)
  | refresh_successful (token : String) (token_expiry_time : Nat)
  | report_error (error : SpotifyError)
  | notify_playback_state (position : Nat)
  deriving DecidableEq, Repr

/-- Observable side effects of the actor: delegate calls, spawning an event
bridge on a player-event channel, shutting a session down, and the
transport calls forwarded to a player handle. -/
inductive Effect where
  | call (c : DelegateCall)
  | spawn_bridge (channel : Nat)
  | session_shutdown (s : Session)
  | player_play (id : Nat)
  | player_pause (id : Nat)
  | player_stop (id : Nat)
  | player_seek (id : Nat) (position_ms : Nat)
  | player_load (id : Nat) (track : String) (start_playing : Bool) (position_ms : Nat)
  deriving DecidableEq, Repr

/-- Modelled from the spec: `SpotSettings` (crate::settings, not under
src/) is the external settings-reload source; only its player settings are
consumed by the actor. -/
structure SpotSettings where
  player_settings : SpotifyPlayerSettings
  deriving DecidableEq, Repr

/-- Modelled from the spec: `unwrap_or_default()` falls back to default
settings when the external provider yields nothing. -/
def SpotSettings.default : SpotSettings :=
  { player_settings := SpotifyPlayerSettings.default }

/-- Pure oracle environment standing for the external collaborators:
`connect p c` is the outcome of `Session::connect` with `ap_port := p` and
credentials `c`; `get_token s id scopes` is `keymaster::get_token`;
`now` the clock; `new_from_gsettings` the settings provider
(`none` models absence, resolved by `unwrap_or_default`). -/
structure Env where
  connect : Option Nat → Credentials → Except SessionError Session
  get_token : Session → String → String → Except Unit TokenResponse
  now : Nat
  new_from_gsettings : Option SpotSettings

/-- The actor state owned by `SpotifyPlayer` (the delegate capability is
not state: its invocations appear in the effect trace).  `fresh` is the
ghost allocation counter modelling Rust object identity. -/
structure SpotifyPlayer where
  settings : SpotifyPlayerSettings
  player : Option Player
  mixer : Option Mixer
  session : Option Session
  fresh : Nat
  deriving DecidableEq, Repr

/-- `SpotifyPlayer::new`. -/
def SpotifyPlayer.new (settings : SpotifyPlayerSettings) : SpotifyPlayer :=
  { settings := settings, player := none, mixer := none, session := none,
    fresh := 0 }

/-- The constant client identity used for every token request. -/
def CLIENT_ID : String := "782ae96ea60f4cdf986a766049607005"

/-- The constant comma-joined scope list used for every token request. -/
def SCOPES : String :=
  "user-read-private,playlist-read-private,playlist-read-collaborative,user-library-read,user-library-modify,user-top-read,user-read-recently-played,playlist-modify-public,playlist-modify-private,streaming"

/-- The static ordered endpoint candidate list `KNOWN_AP_PORTS`. -/
def KNOWN_AP_PORTS : List (Option Nat) := [none, some 80, some 443, some 4070]

/-- librespot `VolumeCtrl::MAX_VOLUME = u16::MAX`. -/
def VolumeCtrl.MAX_VOLUME : Nat := 65535

/-- Models the Rust float-to-integer cast `x as u16` for non-NaN `x`:
truncation toward zero saturated into the `u16` range. -/
def f64_as_u16 (x : ℚ) : Nat :=
  if x ≤ 0 then 0 else min 65535 (Int.toNat x.floor)

/-- `get_access_token_and_expiry_time`: asks the keymaster with the fixed
client id and scopes; any failure maps to TokenFailed; on success the
expiry is now plus the reported lifetime. -/
def get_access_token_and_expiry_time (env : Env) (session : Session) :
    Except SpotifyError (String × Nat) :=
  match env.get_token session CLIENT_ID SCOPES with
  | .error _ => .error .TokenFailed
  | .ok token => .ok (token.access_token, env.now + token.expires_in)

/-- The fallback loop inside `create_session` for the no-fixed-port case;
returns the result together with the list of ports actually attempted, in
order. -/
def create_session_loop (env : Env) (credentials : Credentials) :
    List (Option Nat) → Except SpotifyError Session × List (Option Nat)
  | [] => (.error .LoginFailed, [])
  | port :: rest =>
    match env.connect port credentials with
    | .ok session => (.ok session, [port])
    | .error .IoError =>
      let (r, attempts) := create_session_loop env credentials rest
      (r, port :: attempts)
    | .error .AuthenticationError => (.error .LoginFailed, [port])

/-- `create_session`: with a fixed port a single attempt whose any failure
is LoginFailed; without one, the fallback loop over `KNOWN_AP_PORTS`.
Returns the result and the attempted ports. -/
def create_session (env : Env) (credentials : Credentials)
    (ap_port : Option Nat) : Except SpotifyError Session × List (Option Nat) :=
  match ap_port with
  | some p =>
    (match env.connect (some p) credentials with
     | .ok s => .ok s
     | .error _ => .error .LoginFailed,
     [some p])
  | none => create_session_loop env credentials KNOWN_AP_PORTS

/-- `SpotifyPlayer::create_player`: lazily constructs the shared mixer on
first use (volume initialised to `MAX_VOLUME`), then builds a new player
from the current settings bound to the given session and the mixer's soft
volume.  Returns ((new player, its event channel), updated state). -/
def SpotifyPlayer.create_player (st : SpotifyPlayer) (session : Session) :
    (Player × Nat) × SpotifyPlayer :=
  let soft :=
    match st.mixer with
    | some m => (m, st)
    | none =>
      let m : Mixer := { id := st.fresh, volume := VolumeCtrl.MAX_VOLUME }
      (m, { st with mixer := some m, fresh := st.fresh + 1 })
  let st1 := soft.2
  let new_player : Player :=
    { id := st1.fresh, bitrate := st1.settings.bitrate,
      backend := st1.settings.backend, session := session,
      mixer_id := soft.1.id }
  ((new_player, new_player.id), { st1 with fresh := st1.fresh + 1 })

/-- `SpotifyPlayer::handle`: one command, returning the typed result, the
successor state and the effect trace, mirroring the Rust arm for arm. -/
def SpotifyPlayer.handle (env : Env) (st : SpotifyPlayer) (action : Command) :
    Except SpotifyError Unit × SpotifyPlayer × List Effect :=
  match action with
  | .PlayerSetVolume volume =>
    match st.mixer with
    | some mixer =>
      let mixer1 : Mixer :=
        { mixer with volume := f64_as_u16 ((VolumeCtrl.MAX_VOLUME : ℚ) * volume) }
      (.ok (), { st with mixer := some mixer1 }, [])
    | none => (.ok (), st, [])
  | .PlayerResume =>
    match st.player with
    | none => (.error .PlayerNotReady, st, [])
    | some p => (.ok (), st, [.player_play p.id])
  | .PlayerPause =>
    match st.player with
    | none => (.error .PlayerNotReady, st, [])
    | some p => (.ok (), st, [.player_pause p.id])
  | .PlayerStop =>
    match st.player with
    | none => (.error .PlayerNotReady, st, [])
    | some p => (.ok (), st, [.player_stop p.id])
  | .PlayerSeek position_ms =>
    match st.player with
    | none => (.error .PlayerNotReady, st, [])
    | some p => (.ok (), st, [.player_seek p.id position_ms])
  | .PlayerLoad track =>
    match st.player with
    | none => (.error .PlayerNotReady, st, [])
    | some p => (.ok (), st, [.player_load p.id track true 0])
  | .RefreshToken =>
    match st.session with
    | none => (.error .PlayerNotReady, st, [])
    | some session =>
      match get_access_token_and_expiry_time env session with
      | .error e => (.error e, st, [])
      | .ok (token, token_expiry_time) =>
        (.ok (), st, [.call (.refresh_successful token token_expiry_time)])
  | .Logout =>
    match st.session with
    | none => (.error .PlayerNotReady, st, [])
    | some s =>
      (.ok (), { st with session := none, player := none },
       [.session_shutdown s])
  | .PasswordLogin username password =>
    let credentials := Credentials.with_password username password
    match (create_session env credentials st.settings.ap_port).1 with
    | .error e => (.error e, st, [])
    | .ok new_session =>
      match get_access_token_and_expiry_time env new_session with
      | .error e => (.error e, st, [])
      | .ok (token, token_expiry_time) =>
        let creds : AppCredentials :=
          { username := new_session.username, password := password,
            token := token, token_expiry_time := some token_expiry_time,
            country := new_session.country }
        let pc := SpotifyPlayer.create_player st new_session
        (.ok (),
         { pc.2 with player := some pc.1.1, session := some new_session },
         [.call (.password_login_successful creds), .spawn_bridge pc.1.2])
  | .TokenLogin username token =>
    let credentials : Credentials :=
      { username := username, auth_type := .AUTHENTICATION_SPOTIFY_TOKEN,
        auth_data := token }
    match (create_session env credentials st.settings.ap_port).1 with
    | .error e => (.error e, st, [])
    | .ok new_session =>
      let pc := SpotifyPlayer.create_player st new_session
      (.ok (),
       { pc.2 with player := some pc.1.1, session := some new_session },
       [.call (.token_login_successful new_session.username token),
        .spawn_bridge pc.1.2])
  | .ReloadSettings =>
    let loaded := (env.new_from_gsettings.getD SpotSettings.default).player_settings
    let st1 := { st with settings := loaded }
    match st1.session with
    | none => (.error .PlayerNotReady, st1, [])
    | some session =>
      let st2 := { st1 with session := none }
      let pc := SpotifyPlayer.create_player st2 session
      (.ok (), { pc.2 with player := some pc.1.1 }, [.spawn_bridge pc.1.2])

/-- The body of `SpotifyPlayer::start` over a finite command stream (the
channel closing is the end of the list): threads the state through
`handle`, appends a `report_error` delegate call after each failed
command, and records every per-command result. -/
def SpotifyPlayer.run_loop (env : Env) (st : SpotifyPlayer) :
    List Command → SpotifyPlayer × List Effect × List (Except SpotifyError Unit)
  | [] => (st, [], [])
  | action :: rest =>
    let step := SpotifyPlayer.handle env st action
    let reported :=
      match step.1 with
      | .ok _ => step.2.2
      | .error e => step.2.2 ++ [Effect.call (.report_error e)]
    let tail := SpotifyPlayer.run_loop env step.2.1 rest
    (tail.1, reported ++ tail.2.1, step.1 :: tail.2.2)

/-- `SpotifyPlayer::start`: drains the whole stream and then returns
`Ok(())`. -/
def SpotifyPlayer.start (env : Env) (st : SpotifyPlayer)
    (cmds : List Command) : Except Unit Unit × SpotifyPlayer × List Effect :=
  let run := SpotifyPlayer.run_loop env st cmds
  (.ok (), run.1, run.2.1)

/-- Event vocabulary of librespot `PlayerEvent`; payloads beyond the
position of `Playing` are unused by the bridge and omitted. -/
inductive PlayerEvent where
  | Stopped
  | Started
  | Changed
  | Loading
  | Preloading
  | Playing (position_ms : Nat)
  | Paused (position_ms : Nat)
  | TimeToPreloadNextTrack
  | EndOfTrack
  | Unavailable
  | VolumeSet (volume : Nat)
  deriving DecidableEq, Repr

/-- `player_setup_delegate`: drains the event channel (a finite list; the
empty list is the closed stream) and forwards the reduced vocabulary to
the delegate. -/
def player_setup_delegate : List PlayerEvent → List DelegateCall
  | [] => []
  | event :: rest =>
    (match event with
     | .EndOfTrack | .Stopped => [DelegateCall.end_of_track_reached]
     | .Playing position_ms => [DelegateCall.notify_playback_state position_ms]
     | _ => []) ++ player_setup_delegate rest

/-! Concrete fixtures used to instantiate the theorems below on closed
inputs. -/

/-- A concrete live session produced by the sample environments. -/
def sampleSession : Session := { id := 1, username := "alice", country := "FR" }

/-- A freshly constructed actor with default settings and nothing
installed. -/
def initial_actor : SpotifyPlayer :=
  SpotifyPlayer.new SpotifyPlayerSettings.default

/-- An actor state with a session, a player bound to it, and the shared
mixer installed, as left behind by a successful login. -/
def logged_in_actor : SpotifyPlayer :=
  { settings := SpotifyPlayerSettings.default,
    player := some { id := 3, bitrate := .Bitrate160, backend := .PulseAudio,
                     session := sampleSession, mixer_id := 2 },
    mixer := some { id := 2, volume := 65535 },
    session := some sampleSession,
    fresh := 4 }

/-- Environment in which every connection attempt succeeds but every token
request fails. -/
def env_token_fail : Env :=
  { connect := fun _ _ => .ok sampleSession,
    get_token := fun _ _ _ => .error (),
    now := 0,
    new_from_gsettings := none }

/-- Environment whose settings provider returns settings that differ from
the defaults, and whose network is unreachable. -/
def env_reload : Env :=
  { connect := fun _ _ => .error .IoError,
    get_token := fun _ _ _ => .error (),
    now := 0,
    new_from_gsettings := some { player_settings :=
      { bitrate := .Bitrate320, backend := .PulseAudio, ap_port := none } } }

/-- Environment that rejects every connection attempt as an
authentication failure. -/
def env_auth_reject : Env :=
  { connect := fun _ _ => .error .AuthenticationError,
    get_token := fun _ _ _ => .error (),
    now := 0,
    new_from_gsettings := none }

/-- Environment whose default endpoint is unreachable (I/O failure) while
port 80 accepts the connection; later candidates would also fail. -/
def env_fallback : Env :=
  { connect := fun port _ =>
      match port with
      | some 80 => .ok sampleSession
      | _ => .error .IoError,
    get_token := fun _ _ _ => .error (),
    now := 0,
    new_from_gsettings := none }

/-- Concrete password credentials for fallback scenarios. -/
def creds0 : Credentials := Credentials.with_password "alice" "pw"

/-! Theorems. -/

/-- C7: a SetVolume command processed while no mixer exists succeeds as a
silent no-op: it returns success, reports nothing, and changes no state. -/
theorem C7_set_volume_no_mixer (env : Env) (st : SpotifyPlayer) (volume : ℚ)
    (h : st.mixer = none) :
    SpotifyPlayer.handle env st (.PlayerSetVolume volume) = (.ok (), st, []) := by
  simp [SpotifyPlayer.handle, h]

/-- Witness for C7 at a concrete environment, state and volume. -/
theorem C7_witness :
    SpotifyPlayer.handle env_reload initial_actor (.PlayerSetVolume (1 / 2)) =
      (.ok (), initial_actor, []) :=
  C7_set_volume_no_mixer env_reload initial_actor (1 / 2) rfl

/-- C8: when a mixer exists, SetVolume(1.0) sets its volume to the maximum
integer volume `VolumeCtrl::MAX_VOLUME` and SetVolume(0.0) sets it to the
minimum, 0; nothing else changes and no error is reported. -/
theorem C8_volume_scaling (env : Env) (st : SpotifyPlayer) (m : Mixer)
    (h : st.mixer = some m) :
    SpotifyPlayer.handle env st (.PlayerSetVolume 1) =
      (.ok (), { st with mixer := some { m with volume := VolumeCtrl.MAX_VOLUME } }, []) ∧
    SpotifyPlayer.handle env st (.PlayerSetVolume 0) =
      (.ok (), { st with mixer := some { m with volume := 0 } }, []) := by
  constructor <;>
    norm_num [SpotifyPlayer.handle, h, f64_as_u16, VolumeCtrl.MAX_VOLUME,
      Rat.floor_def']

/-- Witness for C8 at a concrete environment and mixer. -/
theorem C8_witness :
    SpotifyPlayer.handle env_reload logged_in_actor (.PlayerSetVolume 0) =
      (.ok (), { logged_in_actor with mixer := some { id := 2, volume := 0 } }, []) :=
  (C8_volume_scaling env_reload logged_in_actor { id := 2, volume := 65535 } rfl).2

/-- C9: the event bridge maps EndOfTrack and Stopped to
end_of_track_reached, Playing to notify_playback_state with that event's
position, ignores every other event kind, and terminates (producing
nothing further) when the stream ends. -/
theorem C9_event_bridge_mapping :
    player_setup_delegate [] = [] ∧
    (∀ rest, player_setup_delegate (.EndOfTrack :: rest) =
      .end_of_track_reached :: player_setup_delegate rest) ∧
    (∀ rest, player_setup_delegate (.Stopped :: rest) =
      .end_of_track_reached :: player_setup_delegate rest) ∧
    (∀ position_ms rest, player_setup_delegate (.Playing position_ms :: rest) =
      .notify_playback_state position_ms :: player_setup_delegate rest) ∧
    (∀ rest, player_setup_delegate (.Started :: rest) = player_setup_delegate rest) ∧
    (∀ rest, player_setup_delegate (.Changed :: rest) = player_setup_delegate rest) ∧
    (∀ rest, player_setup_delegate (.Loading :: rest) = player_setup_delegate rest) ∧
    (∀ rest, player_setup_delegate (.Preloading :: rest) = player_setup_delegate rest) ∧
    (∀ position_ms rest, player_setup_delegate (.Paused position_ms :: rest) =
      player_setup_delegate rest) ∧
    (∀ rest, player_setup_delegate (.TimeToPreloadNextTrack :: rest) =
      player_setup_delegate rest) ∧
    (∀ rest, player_setup_delegate (.Unavailable :: rest) = player_setup_delegate rest) ∧
    (∀ volume rest, player_setup_delegate (.VolumeSet volume :: rest) =
      player_setup_delegate rest) := by
  refine ⟨rfl, ?_, ?_, ?_, ?_, ?_, ?_, ?_, ?_, ?_, ?_, ?_⟩ <;>
    intros <;> simp [player_setup_delegate]

/-- C10: a PasswordLogin or TokenLogin whose session establishment fails
with LoginFailed leaves the actor state completely unchanged and performs
no side effects from the handler. -/
theorem C10_login_failure_atomic (env : Env) (st : SpotifyPlayer)
    (username password token : String) :
    ((create_session env (Credentials.with_password username password)
        st.settings.ap_port).1 = .error .LoginFailed →
      SpotifyPlayer.handle env st (.PasswordLogin username password) =
        (.error .LoginFailed, st, [])) ∧
    ((create_session env
        { username := username, auth_type := .AUTHENTICATION_SPOTIFY_TOKEN,
          auth_data := token } st.settings.ap_port).1 = .error .LoginFailed →
      SpotifyPlayer.handle env st (.TokenLogin username token) =
        (.error .LoginFailed, st, [])) := by
  constructor <;> intro h <;> simp [SpotifyPlayer.handle, h]

/-- Witness for C10 at a concrete authentication-rejecting environment. -/
theorem C10_witness :
    SpotifyPlayer.handle env_auth_reject logged_in_actor (.PasswordLogin "alice" "pw") =
      (.error .LoginFailed, logged_in_actor, []) :=
  (C10_login_failure_atomic env_auth_reject logged_in_actor "alice" "pw" "tok").1
    (by decide)

/-- C1 refuted: in an environment where session establishment succeeds
(create_session yields sampleSession) and the token fetch fails, the
PasswordLogin handler returns TokenFailed but the newly established
session is NOT left installed: the state still has no session and no
player, contradicting the claim that the new session and player remain
installed. -/
theorem C1_counterexample :
    (create_session env_token_fail (Credentials.with_password "alice" "pw")
        initial_actor.settings.ap_port).1 = .ok sampleSession ∧
    (SpotifyPlayer.handle env_token_fail initial_actor
        (.PasswordLogin "alice" "pw")).1 = .error .TokenFailed ∧
    (SpotifyPlayer.handle env_token_fail initial_actor
        (.PasswordLogin "alice" "pw")).2.1.session = none ∧
    (SpotifyPlayer.handle env_token_fail initial_actor
        (.PasswordLogin "alice" "pw")).2.1.player = none := by
  decide

/-- C1 as amended: when session establishment succeeds but the token fetch
fails, the actor reports TokenFailed to the delegate and its state is left
completely unchanged: the new session is discarded rather than installed
and no player is created. -/
theorem C1_token_failure_drops_session (env : Env) (st : SpotifyPlayer)
    (username password : String) (s : Session)
    (hconn : (create_session env (Credentials.with_password username password)
        st.settings.ap_port).1 = .ok s)
    (htok : get_access_token_and_expiry_time env s = .error .TokenFailed) :
    SpotifyPlayer.start env st [.PasswordLogin username password] =
      (.ok (), st, [Effect.call (.report_error .TokenFailed)]) := by
  simp [SpotifyPlayer.start, SpotifyPlayer.run_loop, SpotifyPlayer.handle,
    hconn, htok]

/-- Witness for the amended C1 at a concrete environment. -/
theorem C1_witness :
    SpotifyPlayer.start env_token_fail initial_actor [.PasswordLogin "alice" "pw"] =
      (.ok (), initial_actor, [Effect.call (.report_error .TokenFailed)]) :=
  C1_token_failure_drops_session env_token_fail initial_actor "alice" "pw"
    sampleSession (by decide) (by decide)

/-- C2 refuted (code bug): ReloadSettings with a session installed
succeeds and rebuilds the player with the newly loaded settings against
that session, but the actor's session field is left empty afterwards (the
session was take()n, moved into the new player, and never restored), so
the actor no longer owns a session while owning a live player. -/
theorem C2_reload_loses_session :
    (SpotifyPlayer.handle env_reload logged_in_actor .ReloadSettings).1 = .ok () ∧
    logged_in_actor.session = some sampleSession ∧
    (SpotifyPlayer.handle env_reload logged_in_actor .ReloadSettings).2.1.session
      = none ∧
    (SpotifyPlayer.handle env_reload logged_in_actor .ReloadSettings).2.1.player
      = some { id := 4, bitrate := .Bitrate320, backend := .PulseAudio,
               session := sampleSession, mixer_id := 2 } := by
  decide

/-- C3 refuted: ReloadSettings against an actor with no session does yield
PlayerNotReady, but it does not leave the state tuple unchanged: the
settings field has already been overwritten with the freshly loaded
settings before the session check fails. -/
theorem C3_counterexample :
    (SpotifyPlayer.handle env_reload initial_actor .ReloadSettings).1 =
      .error .PlayerNotReady ∧
    (SpotifyPlayer.handle env_reload initial_actor .ReloadSettings).2.1 ≠
      initial_actor ∧
    (SpotifyPlayer.handle env_reload initial_actor .ReloadSettings).2.1.settings ≠
      initial_actor.settings := by
  decide

/-- C3 as amended: against an actor with no session and no player, Resume,
Pause, Stop, Seek, Load, RefreshToken and Logout yield PlayerNotReady with
the whole state tuple unchanged and no effects; ReloadSettings also yields
PlayerNotReady and leaves session, player and mixer unchanged, but first
overwrites the settings field with the freshly loaded settings. -/
theorem C3_no_session_player_not_ready (env : Env) (st : SpotifyPlayer)
    (hs : st.session = none) (hp : st.player = none)
    (position_ms : Nat) (track : String) :
    SpotifyPlayer.handle env st .PlayerResume = (.error .PlayerNotReady, st, []) ∧
    SpotifyPlayer.handle env st .PlayerPause = (.error .PlayerNotReady, st, []) ∧
    SpotifyPlayer.handle env st .PlayerStop = (.error .PlayerNotReady, st, []) ∧
    SpotifyPlayer.handle env st (.PlayerSeek position_ms) =
      (.error .PlayerNotReady, st, []) ∧
    SpotifyPlayer.handle env st (.PlayerLoad track) =
      (.error .PlayerNotReady, st, []) ∧
    SpotifyPlayer.handle env st .RefreshToken = (.error .PlayerNotReady, st, []) ∧
    SpotifyPlayer.handle env st .Logout = (.error .PlayerNotReady, st, []) ∧
    SpotifyPlayer.handle env st .ReloadSettings =
      (.error .PlayerNotReady,
       { st with settings :=
           (env.new_from_gsettings.getD SpotSettings.default).player_settings },
       []) := by
  refine ⟨?_, ?_, ?_, ?_, ?_, ?_, ?_, ?_⟩ <;>
    simp [SpotifyPlayer.handle, hs, hp]

/-- Witness for the amended C3 at a concrete environment and the empty
actor. -/
theorem C3_witness :
    SpotifyPlayer.handle env_reload initial_actor .Logout =
      (.error .PlayerNotReady, initial_actor, []) :=
  (C3_no_session_player_not_ready env_reload initial_actor rfl rfl 0 "t").2.2.2.2.2.2.1

/-- Helper: a fallback run over ports that all fail with I/O errors
attempts every port and reports LoginFailed. -/
theorem create_session_loop_all_io (env : Env) (credentials : Credentials) :
    ∀ l : List (Option Nat),
      (∀ q ∈ l, env.connect q credentials = .error .IoError) →
      create_session_loop env credentials l = (.error .LoginFailed, l) := by
  intro l
  induction l with
  | nil => intro _; rfl
  | cons q rest ih =>
    intro h
    have hq := h q (List.mem_cons_self q rest)
    have hrest := ih fun x hx => h x (List.mem_cons_of_mem q hx)
    simp [create_session_loop, hq, hrest]

/-- Helper: with an all-I/O-failing prefix, the fallback loop's outcome is
decided at the next candidate: a success returns that session having
attempted exactly the prefix and that candidate, an authentication
failure aborts with LoginFailed at the same point. -/
theorem create_session_loop_prefix (env : Env) (credentials : Credentials) :
    ∀ pre : List (Option Nat), ∀ p : Option Nat, ∀ post : List (Option Nat),
      (∀ q ∈ pre, env.connect q credentials = .error .IoError) →
      ((∀ s, env.connect p credentials = .ok s →
        create_session_loop env credentials (pre ++ p :: post) =
          (.ok s, pre ++ [p])) ∧
       (env.connect p credentials = .error .AuthenticationError →
        create_session_loop env credentials (pre ++ p :: post) =
          (.error .LoginFailed, pre ++ [p]))) := by
  intro pre
  induction pre with
  | nil =>
    intro p post _
    constructor
    · intro s hs
      simp [create_session_loop, hs]
    · intro ha
      simp [create_session_loop, ha]
  | cons q rest ih =>
    intro p post h
    have hq := h q (List.mem_cons_self q rest)
    have htail := ih p post fun x hx => h x (List.mem_cons_of_mem q hx)
    constructor
    · intro s hs
      simp [create_session_loop, hq, htail.1 s hs]
    · intro ha
      simp [create_session_loop, hq, htail.2 ha]

/-- C4: with no fixed endpoint, session establishment walks the candidate
list [default, 80, 443, 4070] in order with the same credentials; past an
all-I/O-failing prefix, a success returns that session having attempted
nothing further, an authentication failure aborts immediately with
LoginFailed, and if every candidate fails with I/O errors the overall
result is LoginFailed after attempting the whole list. -/
theorem C4_endpoint_fallback (env : Env) (credentials : Credentials) :
    (∀ pre p post, KNOWN_AP_PORTS = pre ++ p :: post →
      (∀ q ∈ pre, env.connect q credentials = .error .IoError) →
      ((∀ s, env.connect p credentials = .ok s →
        create_session env credentials none = (.ok s, pre ++ [p])) ∧
       (env.connect p credentials = .error .AuthenticationError →
        create_session env credentials none =
          (.error .LoginFailed, pre ++ [p])))) ∧
    ((∀ q ∈ KNOWN_AP_PORTS, env.connect q credentials = .error .IoError) →
      create_session env credentials none =
        (.error .LoginFailed, KNOWN_AP_PORTS)) := by
  constructor
  · intro pre p post hsplit hpre
    have h := create_session_loop_prefix env credentials pre p post hpre
    constructor
    · intro s hs
      simpa [create_session, hsplit] using h.1 s hs
    · intro ha
      simpa [create_session, hsplit] using h.2 ha
  · intro h
    simpa [create_session] using
      create_session_loop_all_io env credentials KNOWN_AP_PORTS h

/-- Witness for C4: the default endpoint fails with an I/O error, port 80
succeeds, and the attempt trace stops there. -/
theorem C4_witness :
    create_session env_fallback creds0 none = (.ok sampleSession, [none, some 80]) :=
  ((C4_endpoint_fallback env_fallback creds0).1 [none] (some 80)
      [some 443, some 4070] (by decide) (by decide)).1 sampleSession (by decide)

/-- Helper: the mixer after create_player is the pre-existing one when
present, and the freshly allocated maximum-volume one otherwise. -/
theorem create_player_mixer (st : SpotifyPlayer) (session : Session) :
    (SpotifyPlayer.create_player st session).2.mixer =
      some (st.mixer.getD { id := st.fresh, volume := VolumeCtrl.MAX_VOLUME }) := by
  cases h : st.mixer <;> simp [SpotifyPlayer.create_player, h]

/-- Helper: every command handler leaves the installed mixer's identity
untouched (only its volume may change). -/
theorem handle_preserves_mixer_id (env : Env) (st : SpotifyPlayer)
    (action : Command) (m : Mixer) (h : st.mixer = some m) :
    ∃ m2, (SpotifyPlayer.handle env st action).2.1.mixer = some m2 ∧
      m2.id = m.id := by
  cases action with
  | PlayerSetVolume volume =>
    exact ⟨{ m with volume := f64_as_u16 ((VolumeCtrl.MAX_VOLUME : ℚ) * volume) },
      by simp [SpotifyPlayer.handle, h], rfl⟩
  | PlayerResume =>
    refine ⟨m, ?_, rfl⟩
    cases hp : st.player <;> simp [SpotifyPlayer.handle, hp, h]
  | PlayerPause =>
    refine ⟨m, ?_, rfl⟩
    cases hp : st.player <;> simp [SpotifyPlayer.handle, hp, h]
  | PlayerStop =>
    refine ⟨m, ?_, rfl⟩
    cases hp : st.player <;> simp [SpotifyPlayer.handle, hp, h]
  | PlayerSeek position_ms =>
    refine ⟨m, ?_, rfl⟩
    cases hp : st.player <;> simp [SpotifyPlayer.handle, hp, h]
  | PlayerLoad track =>
    refine ⟨m, ?_, rfl⟩
    cases hp : st.player <;> simp [SpotifyPlayer.handle, hp, h]
  | RefreshToken =>
    refine ⟨m, ?_, rfl⟩
    cases hs : st.session with
    | none => simp [SpotifyPlayer.handle, hs, h]
    | some s =>
      cases ht : get_access_token_and_expiry_time env s with
      | error e => simp [SpotifyPlayer.handle, hs, ht, h]
      | ok v =>
        obtain ⟨tok, texp⟩ := v
        simp [SpotifyPlayer.handle, hs, ht, h]
  | Logout =>
    refine ⟨m, ?_, rfl⟩
    cases hs : st.session <;> simp [SpotifyPlayer.handle, hs, h]
  | PasswordLogin username password =>
    refine ⟨m, ?_, rfl⟩
    cases hcs : (create_session env (Credentials.with_password username password)
        st.settings.ap_port).1 with
    | error e => simp [SpotifyPlayer.handle, hcs, h]
    | ok s =>
      cases ht : get_access_token_and_expiry_time env s with
      | error e => simp [SpotifyPlayer.handle, hcs, ht, h]
      | ok v =>
        obtain ⟨tok, texp⟩ := v
        simp [SpotifyPlayer.handle, hcs, ht, create_player_mixer, h]
  | TokenLogin username token =>
    refine ⟨m, ?_, rfl⟩
    cases hcs : (create_session env
        { username := username, auth_type := .AUTHENTICATION_SPOTIFY_TOKEN,
          auth_data := token } st.settings.ap_port).1 with
    | error e => simp [SpotifyPlayer.handle, hcs, h]
    | ok s => simp [SpotifyPlayer.handle, hcs, create_player_mixer, h]
  | ReloadSettings =>
    refine ⟨m, ?_, rfl⟩
    cases hs : st.session with
    | none => simp [SpotifyPlayer.handle, hs, h]
    | some s => simp [SpotifyPlayer.handle, hs, create_player_mixer, h]

/-- C5: the mixer is created lazily on first player creation with its
volume initialised to the maximum, an existing mixer is reused identically
by create_player, and no command handler ever replaces the installed
mixer's identity. -/
theorem C5_mixer_created_once (st : SpotifyPlayer) (session : Session) :
    (st.mixer = none →
      (SpotifyPlayer.create_player st session).2.mixer =
        some { id := st.fresh, volume := VolumeCtrl.MAX_VOLUME }) ∧
    (∀ m, st.mixer = some m →
      (SpotifyPlayer.create_player st session).2.mixer = some m) ∧
    (∀ env action m, st.mixer = some m →
      ∃ m2, (SpotifyPlayer.handle env st action).2.1.mixer = some m2 ∧
        m2.id = m.id) := by
  refine ⟨?_, ?_, ?_⟩
  · intro h
    simp [create_player_mixer, h]
  · intro m h
    simp [create_player_mixer, h]
  · intro env action m h
    exact handle_preserves_mixer_id env st action m h

/-- Witness for C5: reloading settings on the logged-in actor rebuilds the
player but keeps the very same mixer (identity 2). -/
theorem C5_witness :
    (SpotifyPlayer.create_player logged_in_actor sampleSession).2.mixer =
      some { id := 2, volume := 65535 } ∧
    ∃ m2, (SpotifyPlayer.handle env_reload logged_in_actor .ReloadSettings).2.1.mixer =
      some m2 ∧ m2.id = 2 :=
  ⟨(C5_mixer_created_once logged_in_actor sampleSession).2.1
      { id := 2, volume := 65535 } rfl,
   (C5_mixer_created_once logged_in_actor sampleSession).2.2 env_reload
      .ReloadSettings { id := 2, volume := 65535 } rfl⟩

/-- C6: the run loop returns Ok once the command stream closes, processes
every command (one result per command), and every per-command failure is
one of the three typed errors and is reported to the delegate via
report_error. -/
theorem C6_errors_reported_loop_continues (env : Env) (st : SpotifyPlayer)
    (cmds : List Command) :
    (SpotifyPlayer.start env st cmds).1 = .ok () ∧
    (SpotifyPlayer.run_loop env st cmds).2.2.length = cmds.length ∧
    (∀ e, Except.error e ∈ (SpotifyPlayer.run_loop env st cmds).2.2 →
      (e = .LoginFailed ∨ e = .TokenFailed ∨ e = .PlayerNotReady) ∧
      Effect.call (.report_error e) ∈ (SpotifyPlayer.run_loop env st cmds).2.1) := by
  refine ⟨rfl, ?_, ?_⟩
  · induction cmds generalizing st with
    | nil => rfl
    | cons c rest ih => simp [SpotifyPlayer.run_loop, ih]
  · induction cmds generalizing st with
    | nil =>
      intro e he
      simp [SpotifyPlayer.run_loop] at he
    | cons c rest ih =>
      intro e he
      have htriv : e = SpotifyError.LoginFailed ∨ e = SpotifyError.TokenFailed ∨
          e = SpotifyError.PlayerNotReady := by cases e <;> simp
      refine ⟨htriv, ?_⟩
      simp only [SpotifyPlayer.run_loop, List.mem_cons] at he
      simp only [SpotifyPlayer.run_loop, List.mem_append]
      rcases he with he | he
      · left
        rw [← he]
        simp
      · right
        exact (ih _ e he).2

/-- Witness for C6: a Resume against the empty actor fails with
PlayerNotReady, the failure is reported, and the loop still returns Ok. -/
theorem C6_witness :
    (SpotifyPlayer.start env_reload initial_actor [Command.PlayerResume]).1 = .ok () ∧
    Effect.call (.report_error .PlayerNotReady) ∈
      (SpotifyPlayer.run_loop env_reload initial_actor [Command.PlayerResume]).2.1 :=
  ⟨(C6_errors_reported_loop_continues env_reload initial_actor
      [Command.PlayerResume]).1,
   ((C6_errors_reported_loop_continues env_reload initial_actor
      [Command.PlayerResume]).2.2 .PlayerNotReady (by decide)).2⟩

end Spot
